import Mathlib

/-!
Shallow embedding of the instruction-dispatch core of the bananabread VM
(`src/vm/src/handlers.cpp`), together with theorems settling the spec's
claims about the `Bananabread::Handlers::handle` dispatcher.

The repository ships only `handlers.cpp`; the headers it includes
(`handlers.hpp`, `value.hpp`) declaring the `Instruction`, `Value::Base`,
`VM::Registers` and `Dispatch` class hierarchies are not present, so those
data types are modelled from the spec (section 3 of the spec, "DATA MODEL").
The dispatcher's logic itself is translated line by line from the source.
-/

namespace Bananabread

/-- Modelled from the spec: `Value::Base` (declared in the absent
`value.hpp`) — "an opaque, copyable unit of data the VM manipulates".
Only copyability and equality of values matter to the dispatcher, so the
payload is represented by a single numeric datum. -/
structure Value where
  datum : Nat
  deriving DecidableEq, Repr

/-- Modelled from the spec: `VM::Registers` (declared in an absent header) —
"a small fixed or indexed set of named machine registers (e.g., program
counter, frame pointer)". -/
structure Registers where
  pc : Nat
  fp : Nat
  deriving DecidableEq, Repr

/-- Modelled from the spec: the `Instruction::Code` class hierarchy
(declared in an absent header). `handlers.cpp` witnesses (via its
`dynamic_cast` chain) the derived classes `Instruction::Label`,
`Instruction::Value` and `Instruction::Halt`; the spec also mandates that
"additional variants are expected in a complete VM (arithmetic, jumps,
calls)", represented here by the `unknown` constructor (the spec's
"synthetic unknown test double", e.g. a synthetic `Jump`). Payloads
follow the spec's scenarios: `Label("loop_start")`, `Value(42)`. -/
inductive Code where
  | label (name : String)
  | value (v : Value)
  | halt
  | unknown (tag : String)
  deriving DecidableEq, Repr

/-- The `Instruction::Code*` parameter of `handle` is a raw pointer and may
be null; `none` models the null pointer. -/
abbrev CodePtr := Option Code

/-- Modelled after `Dispatch::Action` with its derived classes
`Dispatch::Cont`, `Dispatch::Stop`, `Dispatch::Error(msg)` (declared in the
absent `handlers.hpp`, constructed in `handlers.cpp`). -/
inductive Action where
  | cont
  | stop
  | error (msg : String)
  deriving DecidableEq, Repr

/-- Discriminator for the `Dispatch::Error` variant of a decision. -/
def Action.isError : Action → Bool
  | .error _ => true
  | _ => false

namespace Handlers

/-- Boolean outcome of `dynamic_cast<Instruction::Label*>(code)`:
succeeds exactly when the pointer is non-null and points to a `Label`
(on a null pointer, `dynamic_cast` yields null, i.e. `false`). -/
def isLabel : CodePtr → Bool
  | some (.label _) => true
  | _ => false

/-- Boolean outcome of `dynamic_cast<Instruction::Value*>(code)`. -/
def isValue : CodePtr → Bool
  | some (.value _) => true
  | _ => false

/-- Boolean outcome of `dynamic_cast<Instruction::Halt*>(code)`. -/
def isHalt : CodePtr → Bool
  | some .halt => true
  | _ => false

/-- The fixed diagnostic string of `handlers.cpp` line 20. -/
def unhandledMsg : String := "internal error: unhandled instruction"

/-- Translation of `Bananabread::Handlers::handle` (handlers.cpp lines 11–21),
statement by statement: the `if`/`else if` chain over the three
`dynamic_cast` tests, with the `Error` construction as the fall-through.
`reg` and `stack` are the by-value parameters of the source signature. -/
def handle (code : CodePtr) (reg : Registers) (stack : List Value) : Action :=
  if isLabel code then Action.cont
  else if isValue code then Action.cont
  else if isHalt code then Action.stop
  else Action.error unhandledMsg

/-- The full observable effect of one call to `handle` as seen by the
caller: the returned decision together with the caller's register state and
operand stack after the call returns. In the source both `reg` and `stack`
are pass-by-value parameters and the enclosing loop's copies are never
written through, so each branch of the translated body pairs its decision
with the caller's state. -/
def handleCall (code : CodePtr) (reg : Registers) (stack : List Value) :
    Action × Registers × List Value :=
  if isLabel code then (Action.cont, reg, stack)
  else if isValue code then (Action.cont, reg, stack)
  else if isHalt code then (Action.stop, reg, stack)
  else (Action.error unhandledMsg, reg, stack)

/-- The decision component of `handleCall` is `handle`. -/
theorem handleCall_fst (code : CodePtr) (reg : Registers) (stack : List Value) :
    (handleCall code reg stack).1 = handle code reg stack := by
  unfold handleCall handle
  split <;> [rfl; skip]
  split <;> [rfl; skip]
  split <;> rfl

/-- State components of `handleCall`: the body of `handle` writes neither
`reg` nor `stack`, so every branch of the translated call returns the
caller's state unchanged. -/
theorem handleCall_state (code : CodePtr) (reg : Registers) (stack : List Value) :
    (handleCall code reg stack).2 = (reg, stack) := by
  unfold handleCall
  split <;> [rfl; skip]
  split <;> [rfl; skip]
  split <;> rfl

/-- The three variant checks: one `dynamic_cast` test of the chain, keyed by
the variant it tests for. -/
inductive Check where
  | label
  | value
  | halt
  deriving DecidableEq, Repr

/-- Outcome of the `dynamic_cast` test named by a `Check` on an instruction
pointer. -/
def checkHolds : Check → CodePtr → Bool
  | Check.label, code => isLabel code
  | Check.value, code => isValue code
  | Check.halt, code => isHalt code

/-- Decision constructed by the branch guarded by the given check
(`Cont` for `Label` and `Value`, `Stop` for `Halt`). -/
def checkAction : Check → Action
  | Check.label => Action.cont
  | Check.value => Action.cont
  | Check.halt => Action.stop

/-- A dispatcher that performs the variant tests in the given order, with
the error default evaluated last, once every test has failed. With the
order `[label, value, halt]` this is exactly the chain of `handle`. -/
def dispatchOrder : List Check → CodePtr → Action
  | [], _ => Action.error unhandledMsg
  | c :: rest, code =>
      if checkHolds c code then checkAction c else dispatchOrder rest code

/-- Any reordering of the tests agrees with the source order on every
instruction. -/
theorem dispatchOrder_source (code : CodePtr) (reg : Registers) (stk : List Value) :
    dispatchOrder [Check.label, Check.value, Check.halt] code = handle code reg stk := by
  cases code with
  | none => rfl
  | some c => cases c <;> rfl

/-- C1: dispatch maps an instruction that is none of the variants `Label`,
`Value`, `Halt` — a null pointer or any future/unrecognized variant — to the
`Error` decision carrying the fixed diagnostic, and maps no other
instruction to an `Error` decision; the diagnostic is non-empty and names
the internal, unhandled-instruction condition. -/
theorem unmodeled_dispatch_error (code : CodePtr) (reg : Registers) (stk : List Value) :
    (handle code reg stk = Action.error unhandledMsg ↔
      (isLabel code = false ∧ isValue code = false ∧ isHalt code = false)) ∧
    ((handle code reg stk).isError = true ↔
      handle code reg stk = Action.error unhandledMsg) ∧
    unhandledMsg ≠ "" ∧
    "internal".toList <:+: unhandledMsg.toList ∧
    "unhandled instruction".toList <:+: unhandledMsg.toList := by
  refine ⟨?_, ?_, by decide, by decide, by decide⟩
  · cases code with
    | none => simp [handle, isLabel, isValue, isHalt]
    | some c => cases c <;> simp [handle, isLabel, isValue, isHalt]
  · cases code with
    | none => simp [handle, isLabel, isValue, isHalt, Action.isError]
    | some c => cases c <;> simp [handle, isLabel, isValue, isHalt, Action.isError]

/-- C2: dispatch returns `Stop` exactly on the `Halt` instruction: every
`Halt` dispatches to `Stop`, and no other instruction (not even a null
pointer) dispatches to `Stop`. -/
theorem halt_dispatch_stop (code : CodePtr) (reg : Registers) (stk : List Value) :
    handle code reg stk = Action.stop ↔ code = some Code.halt := by
  cases code with
  | none => simp [handle, isLabel, isValue, isHalt]
  | some c => cases c <;> simp [handle, isLabel, isValue, isHalt]

/-- C3: every `Label` instruction, whatever its name, dispatches to
`Continue`. -/
theorem label_dispatch_continue (name : String) (reg : Registers) (stk : List Value) :
    handle (some (Code.label name)) reg stk = Action.cont := rfl

/-- C4: every `Value` instruction, whatever payload it carries, dispatches
to `Continue`; in particular dispatch never returns `Stop` or `Error` for
it. -/
theorem value_dispatch_continue (v : Value) (reg : Registers) (stk : List Value) :
    handle (some (Code.value v)) reg stk = Action.cont ∧
    handle (some (Code.value v)) reg stk ≠ Action.stop ∧
    ∀ msg, handle (some (Code.value v)) reg stk ≠ Action.error msg := by
  refine ⟨rfl, by simp [handle, isLabel, isValue], ?_⟩
  intro msg
  simp [handle, isLabel, isValue]

/-- C5: dispatch is total — on every input it returns exactly one decision,
which is `Continue`, `Stop`, or the `Error` decision with the fixed
diagnostic; failure is communicated only through that returned `Error`
value, never by an exception or abort (the embedding of `handle` is a total
function into `Action`). -/
theorem dispatch_always_returns (code : CodePtr) (reg : Registers) (stk : List Value) :
    handle code reg stk = Action.cont ∨ handle code reg stk = Action.stop ∨
      handle code reg stk = Action.error unhandledMsg := by
  cases code with
  | none => simp [handle, isLabel, isValue, isHalt]
  | some c => cases c <;> simp [handle, isLabel, isValue, isHalt]

/-- C6: for an instruction of one of the specified variants (`Label`,
`Value`, `Halt`), the call leaves the caller's register state and operand
stack exactly as they were: same registers, same stack contents (hence same
depth). -/
theorem specified_dispatch_preserves_state (code : CodePtr) (reg : Registers)
    (stk : List Value)
    (h : isLabel code = true ∨ isValue code = true ∨ isHalt code = true) :
    (handleCall code reg stk).2.1 = reg ∧ (handleCall code reg stk).2.2 = stk := by
  constructor <;> simp [handleCall_state]

/-- Closed instance of C6 at the `Halt` instruction with concrete state. -/
theorem specified_dispatch_preserves_state_witness :
    (handleCall (some Code.halt) (Registers.mk 7 3) [Value.mk 42]).2.1 = Registers.mk 7 3 ∧
    (handleCall (some Code.halt) (Registers.mk 7 3) [Value.mk 42]).2.2 = [Value.mk 42] :=
  specified_dispatch_preserves_state (some Code.halt) (Registers.mk 7 3) [Value.mk 42]
    (Or.inr (Or.inr (by decide)))

/-- C7: dispatch is deterministic — a second call on the same instruction
and the state left behind by the first call (which is the same, unmodified
state) produces the identical decision and state. -/
theorem dispatch_deterministic (code : CodePtr) (reg : Registers) (stk : List Value) :
    handleCall code (handleCall code reg stk).2.1 (handleCall code reg stk).2.2 =
      handleCall code reg stk := by
  simp [handleCall_state]

/-- C8: since the variant set is disjoint, the order of the three variant
checks is irrelevant: a dispatcher running them in any order, with the
error default evaluated last, returns the same decision as `handle` on
every instruction. -/
theorem dispatch_order_irrelevant (order : List Check)
    (h : order.Perm [Check.label, Check.value, Check.halt])
    (code : CodePtr) (reg : Registers) (stk : List Value) :
    dispatchOrder order code = handle code reg stk := by
  have hlen : order.length = 3 := h.length_eq
  have h3 : ∃ a b c, order = [a, b, c] := by
    rcases order with _ | ⟨a, _ | ⟨b, _ | ⟨c, _ | ⟨d, t⟩⟩⟩⟩ <;> simp at hlen
    exact ⟨a, b, c, rfl⟩
  obtain ⟨a, b, c, rfl⟩ := h3
  cases a <;> cases b <;> cases c <;>
    first
      | exact absurd h (by decide)
      | (cases code with
         | none => rfl
         | some i => cases i <;> rfl)

/-- Closed instance of C8: the reversed order agrees with the source order
on the `Halt` instruction. -/
theorem dispatch_order_irrelevant_witness :
    dispatchOrder [Check.halt, Check.value, Check.label] (some Code.halt) =
      handle (some Code.halt) (Registers.mk 0 0) [] :=
  dispatch_order_irrelevant [Check.halt, Check.value, Check.label] (by decide)
    (some Code.halt) (Registers.mk 0 0) []

/-- C9: a null instruction pointer fails every `dynamic_cast` test, so
dispatch falls through to the `Error` decision with the fixed message,
rather than crashing. -/
theorem null_dispatch_error (reg : Registers) (stk : List Value) :
    handle none reg stk = Action.error "internal error: unhandled instruction" := rfl

/-- C10: the decision depends only on the instruction — for one instruction
and any two register states and any two operand stacks, dispatch returns
the same decision; the body never reads `reg` or `stack`. -/
theorem dispatch_ignores_state (code : CodePtr) (reg₁ reg₂ : Registers)
    (stk₁ stk₂ : List Value) :
    handle code reg₁ stk₁ = handle code reg₂ stk₂ := rfl

end Handlers

end Bananabread
